import Mathlib

/-!
Verification development for the dataset-monitor pipeline (Rust).

Shallow embedding: the pure logic of src/fetcher.rs, src/monitor.rs,
src/models.rs, src/config.rs, src/db/mongodb.rs and src/db/duckdb.rs is
translated into executable Lean definitions.  Network I/O, JSON parsing and
wall-clock time are passed in as explicit oracle parameters; database state
is passed explicitly.  Timestamps are modelled as Int.
-/

/-! ## String helpers (model of Rust str::contains and to_lowercase) -/

/-- Model of matching a pattern at the start of a character list. -/
def pfx_at : List Char → List Char → Bool
  | [], _ => true
  | _ :: _, [] => false
  | a :: as, b :: bs => a == b && pfx_at as bs

/-- Model of substring containment over character lists. -/
def sub_at (needle : List Char) : List Char → Bool
  | [] => needle.isEmpty
  | c :: rest => pfx_at needle (c :: rest) || sub_at needle rest

/-- Model of Rust `str::contains` (substring containment). -/
def str_contains_sub (s pat : String) : Bool :=
  sub_at pat.data s.data

/-- Model of Rust `str::to_lowercase` (per-character lowering). -/
def to_lower_str (s : String) : String :=
  ⟨s.data.map Char.toLower⟩

/-! ## Dedup / workflow state (collection processed_dataset_ids, db/mongodb.rs) -/

/-- Status field of a dedup record: the string "pending" or "processed". -/
inductive IdStatus
  | pending
  | processed
deriving DecidableEq, Repr

/-- One document of the processed_dataset_ids collection (db/mongodb.rs:
save_new_dataset_ids writes center_name, dataset_id, status). -/
structure ProcessedIdRecord where
  center_name : String
  dataset_id : String
  status : IdStatus
deriving DecidableEq, Repr

/-! ## BSON values and datasets (src/models.rs) -/

/-- Minimal model of the mongodb Bson values the code inspects. -/
inductive BsonV
  | str (s : String)
  | document (fields : List (String × BsonV))
  | arr (items : List BsonV)
  | dateTime (t : Int)
  | other

/-- Model of models.rs Dataset.  The Mongo ObjectId in field `_id` is
modelled as its rendered string. -/
structure Dataset where
  _id : Option String
  raw_id : String
  casdc_id : Option String
  data_type : Option BsonV
  url : Option BsonV
  name : Option BsonV
  date_published : Option BsonV
  sync_date : Option Int
  center_name : Option String

/-- models.rs Dataset::extract_url: the url field must be a Bson string. -/
def Dataset.extract_url (d : Dataset) : Option String :=
  match d.url with
  | some (BsonV.str s) => some s
  | _ => none

/-- Helper for extract_name: first lookup of a key in a Bson document. -/
def bson_doc_get (fields : List (String × BsonV)) (key : String) : Option BsonV :=
  match fields.find? (fun p => p.1 == key) with
  | some p => some p.2
  | none => none

/-- models.rs Dataset::extract_name. -/
def Dataset.extract_name (d : Dataset) : String :=
  match d.name with
  | some (BsonV.str s) => s
  | some (BsonV.document doc) =>
      match bson_doc_get doc "@value" with
      | some (BsonV.str s) => s
      | _ => "unknown"
  | some (BsonV.arr items) =>
      match items.head? with
      | some (BsonV.str s) => s
      | some (BsonV.document d2) =>
          match bson_doc_get d2 "@value" with
          | some (BsonV.str s) => s
          | _ => "unknown"
      | _ => "unknown"
  | _ => "Unknown"

/-- models.rs Dataset::extract_date_published; Bson DateTime rendering is
modelled as an opaque-free decimal rendering of the timestamp. -/
def Dataset.extract_date_published (d : Dataset) : String :=
  match d.date_published with
  | some (BsonV.str s) => s
  | some (BsonV.dateTime t) => toString t
  | _ => "unknown"

/-! ## Error taxonomy (src/models.rs ErrorCategory) -/

/-- models.rs ErrorCategory. -/
inductive ErrorCategory
  | NetworkConnection
  | DnsResolution
  | Timeout
  | SslCertificate
  | ConnectionRefused
  | ServerError
  | ClientError
  | TooManyRedirects
  | RequestCanceled
  | Unknown
deriving DecidableEq, Repr

/-- Model of a reqwest::Error as the code observes it: the four boolean
predicates it queries plus the rendered source (cause) text when present. -/
structure RequestError where
  timeout : Bool
  connect : Bool
  redirect : Bool
  request : Bool
  source : Option String

/-- models.rs ErrorCategory::from_request_error, translated branch by
branch from the source. -/
def from_request_error (e : RequestError) : ErrorCategory :=
  if e.timeout then
    ErrorCategory.Timeout
  else if e.connect then
    match e.source with
    | some src =>
        let error_str := to_lower_str src
        if str_contains_sub error_str "connection refused" then
          ErrorCategory.ConnectionRefused
        else if str_contains_sub error_str "dns" || str_contains_sub error_str "resolve" then
          ErrorCategory.DnsResolution
        else if str_contains_sub error_str "network unreachable" ||
            str_contains_sub error_str "no route to host" then
          ErrorCategory.NetworkConnection
        else
          ErrorCategory.NetworkConnection
    | none => ErrorCategory.NetworkConnection
  else if e.redirect then
    ErrorCategory.TooManyRedirects
  else if e.request then
    ErrorCategory.RequestCanceled
  else
    match e.source with
    | some src =>
        let error_str := to_lower_str src
        if str_contains_sub error_str "ssl" || str_contains_sub error_str "tls" ||
            str_contains_sub error_str "certificate" then
          ErrorCategory.SslCertificate
        else
          ErrorCategory.Unknown
    | none => ErrorCategory.Unknown

/-- models.rs ErrorCategory::is_likely_local_issue. -/
def is_likely_local_issue : ErrorCategory → Bool
  | ErrorCategory.NetworkConnection => true
  | ErrorCategory.DnsResolution => true
  | ErrorCategory.Timeout => true
  | ErrorCategory.RequestCanceled => true
  | _ => false

/-- Written from the spec words (section 4.4 decision order), to be compared
with from_request_error: timeout first; then connection failure inspecting
the cause text in the stated keyword order with NetworkConnection as the
default; then redirect-policy violation; then request build/cancel; finally
the ssl/tls/certificate inspection with Unknown as the fallback. -/
def classify_request_error_spec (e : RequestError) : ErrorCategory :=
  if e.timeout then ErrorCategory.Timeout
  else if e.connect then
    (match e.source.map (fun src => to_lower_str src) with
      | some low =>
          if str_contains_sub low "connection refused" then ErrorCategory.ConnectionRefused
          else if str_contains_sub low "dns" || str_contains_sub low "resolve" then
            ErrorCategory.DnsResolution
          else if str_contains_sub low "network unreachable" ||
              str_contains_sub low "no route to host" then ErrorCategory.NetworkConnection
          else ErrorCategory.NetworkConnection
      | none => ErrorCategory.NetworkConnection)
  else if e.redirect then ErrorCategory.TooManyRedirects
  else if e.request then ErrorCategory.RequestCanceled
  else
    (match e.source.map (fun src => to_lower_str src) with
      | some low =>
          if str_contains_sub low "ssl" || str_contains_sub low "tls" ||
              str_contains_sub low "certificate" then ErrorCategory.SslCertificate
          else ErrorCategory.Unknown
      | none => ErrorCategory.Unknown)

/-! ## Configuration (src/config.rs) -/

/-- config.rs Center.  The `enabled` flag is read by fetcher.rs line 50;
it is absent from the Center struct in the checked-in config.rs (version
skew in the tree) and is declared by the spec data model, so it is carried
here as a plain boolean field. -/
structure Center where
  name : String
  secret_key : String
  url : String
  enabled : Bool
deriving DecidableEq, Repr

/-! ## Credential cache (src/fetcher.rs TokenInfo, get_or_refresh_token) -/

/-- fetcher.rs ServiceInfo. -/
structure ServiceInfo where
  name : String
  url : String
deriving DecidableEq, Repr

/-- fetcher.rs TokenInfo; expires_at is an Int timestamp. -/
structure TokenInfo where
  token : String
  version : String
  services : List ServiceInfo
  expires_at : Int
deriving DecidableEq, Repr

/-- models.rs Service (one serviceList entry of the auth response). -/
structure Service where
  name : String
  version : String
  url : String
deriving DecidableEq, Repr

/-- models.rs Ticket. -/
structure Ticket where
  expires : Int
  token : String
deriving DecidableEq, Repr

/-- models.rs AuthResponse. -/
structure AuthResponse where
  ticket : Ticket
  service_list : List Service
deriving DecidableEq, Repr

/-- fetcher.rs get_or_refresh_token, lines 229-241: the TokenInfo built from
a freshly parsed AuthResponse at time `now`. -/
def build_token_info (now : Int) (auth : AuthResponse) : TokenInfo :=
  { token := auth.ticket.token
    version := ((auth.service_list.head?).map (fun s => s.version)).getD "1.0"
    services := auth.service_list.map (fun s => { name := s.name, url := s.url })
    expires_at := now + (auth.ticket.expires - 300) }

/-- fetcher.rs get_or_refresh_token: cache lookup with expiry check; on miss
or expiry the auth response (an oracle here) is parsed and cached. -/
def get_or_refresh_token (now : Int) (cache : List (String × TokenInfo))
    (name : String) (auth : AuthResponse) : TokenInfo × List (String × TokenInfo) :=
  match cache.lookup name with
  | some token_info =>
      if token_info.expires_at > now then (token_info, cache)
      else
        let fresh := build_token_info now auth
        (fresh, (name, fresh) :: cache.filter (fun p => !(p.1 == name)))
  | none =>
      let fresh := build_token_info now auth
      (fresh, (name, fresh) :: cache.filter (fun p => !(p.1 == name)))

/-! ## Mongo-side state (src/db/mongodb.rs) -/

/-- Abstract state of the Mongo database as the fetcher uses it: the shared
dedup collection plus one dataset collection per center name. -/
structure FetchDb where
  processed_ids : List ProcessedIdRecord
  collections : List (String × List Dataset)

/-- Modelled from the spec: `get_dataset_by_center` is called at
fetcher.rs:123 but not defined under src/ (version skew).  Spec section 4.2:
"Load the full set of external ids already known for this provider
(regardless of processed status) from the dedup store"; the call-site
comment says the same. -/
def get_dataset_by_center (db : FetchDb) (center_name : String) : List String :=
  (db.processed_ids.filter (fun r => r.center_name == center_name)).map
    (fun r => r.dataset_id)

/-- Modelled from the spec: `get_unprocessed_ids` is called at
fetcher.rs:162 but not defined under src/ (version skew).  Spec section 4.3:
"load all ProcessedIdRecords with status=pending for the provider". -/
def get_unprocessed_ids (db : FetchDb) (center_name : String) : List String :=
  (db.processed_ids.filter
      (fun r => r.center_name == center_name && r.status == IdStatus.pending)).map
    (fun r => r.dataset_id)

/-- mongodb.rs save_new_dataset_ids: insert one pending record per new id. -/
def save_new_dataset_ids (db : FetchDb) (center_name : String)
    (new_ids : List String) : FetchDb :=
  if new_ids.isEmpty then db
  else
    { db with
        processed_ids := db.processed_ids ++ new_ids.map
          (fun id => { center_name := center_name, dataset_id := id,
                       status := IdStatus.pending }) }

/-- mongodb.rs update_processed_ids: set status=processed on every record of
the center whose dataset_id is in the list. -/
def update_processed_ids (db : FetchDb) (center_name : String)
    (ids : List String) : FetchDb :=
  if ids.isEmpty then db
  else
    { db with
        processed_ids := db.processed_ids.map (fun r =>
          if r.center_name == center_name && ids.contains r.dataset_id then
            { r with status := IdStatus.processed }
          else r) }

/-- mongodb.rs upsert_dataset: replace_one with filter on the "@id" field
and upsert=true — replace the first document whose raw_id matches, append
when none matches. -/
def upsert_into : List Dataset → Dataset → List Dataset
  | [], d => [d]
  | x :: xs, d =>
      if x.raw_id == d.raw_id then d :: xs else x :: upsert_into xs d

/-- Helper: read a collection of the document store by name. -/
def get_collection (db : FetchDb) (collection_name : String) : List Dataset :=
  ((db.collections.find? (fun p => p.1 == collection_name)).map
    (fun p => p.2)).getD []

/-- Helper: write back a collection of the document store by name. -/
def set_collection (db : FetchDb) (collection_name : String)
    (docs : List Dataset) : FetchDb :=
  if (db.collections.find? (fun p => p.1 == collection_name)).isSome then
    { db with collections := db.collections.map (fun p =>
        if p.1 == collection_name then (p.1, docs) else p) }
  else
    { db with collections := db.collections ++ [(collection_name, docs)] }

/-- mongodb.rs upsert_dataset lifted to the database state. -/
def upsert_dataset (db : FetchDb) (collection_name : String)
    (dataset : Dataset) : FetchDb :=
  set_collection db collection_name
    (upsert_into (get_collection db collection_name) dataset)

/-! ## Body sanitization (src/fetcher.rs clean_json_string) -/

/-- fetcher.rs clean_json_string: keep characters that are at least the
space character, plus newline, carriage return and tab. -/
def clean_json_string (input : String) : String :=
  ⟨input.data.filter (fun c =>
    decide (' ' ≤ c) || c == '\n' || c == '\r' || c == '\t')⟩

/-- Written from the spec words: a Unicode control character (category Cc,
as decided by Rust char::is_control): code below U+0020, or U+007F through
U+009F. -/
def is_control_char (c : Char) : Bool :=
  decide (c.toNat < 0x20) || (decide (0x7F ≤ c.toNat) && decide (c.toNat ≤ 0x9F))

/-! ## Detail fetch and discovery (src/fetcher.rs) -/

/-- Header map built at fetcher.rs lines 81-83 and 157-159: the token and
version of the credential, identical for the list and the detail calls. -/
def token_headers (token_info : TokenInfo) : List (String × String) :=
  [("token", token_info.token), ("version", token_info.version)]

/-- Request method chosen at fetcher.rs lines 85-88 by substring-matching
the center name. -/
def list_method (name : String) : String :=
  if str_contains_sub name "海洋科学" || str_contains_sub name "微生物" then "POST"
  else "GET"

/-- Observable actions of one provider cycle, in program order. -/
inductive FetchEvent
  | listRequest (center method : String) (headers : List (String × String))
  | detailRequest (id : String) (headers : List (String × String))
  | upsertEv (collection : String) (d : Dataset)
  | markProcessed (id : String)
  | skipped (id : String) (status : Nat)

/-- True exactly on markProcessed events. -/
def is_mark_event : FetchEvent → Bool
  | FetchEvent.markProcessed _ => true
  | _ => false

/-- Oracle outcome of one detail request: the send itself can fail with a
transport error, otherwise a status arrives and reading the body as text can
itself fail. -/
inductive DetailResponse
  | sendErr (msg : String)
  | httpResp (status : Nat) (body : Except String String)

/-- reqwest StatusCode::is_success: 2xx. -/
def status_is_success (status : Nat) : Bool :=
  200 ≤ status && status < 300

/-- fetcher.rs process_pending_datasets, lines 171-195: the per-id loop.
fetch_detail is the network oracle (one response per id), parse_dataset the
serde_json oracle (the Value and Dataset parse steps collapsed, either
failing identically).  A question-mark propagation in the source becomes an
Except.error that aborts the whole loop; upsert and status update are
modelled as infallible state updates (mongo storage errors also abort via
question mark, which this model does not exercise). -/
def process_pending_loop (fetch_detail : String → DetailResponse)
    (parse_dataset : String → Option Dataset) (name : String)
    (headers : List (String × String)) :
    List String → Nat → FetchDb → Except String (Nat × FetchDb × List FetchEvent)
  | [], count, db => Except.ok (count, db, [])
  | id :: rest, count, db =>
      match fetch_detail id with
      | DetailResponse.sendErr msg => Except.error msg
      | DetailResponse.httpResp status body =>
          if status_is_success status then
            match body with
            | Except.error msg => Except.error msg
            | Except.ok text =>
                let cleaned_text := clean_json_string text
                match parse_dataset cleaned_text with
                | none => Except.error (name ++ " parse failure for " ++ id)
                | some ds0 =>
                    let dataset := { ds0 with casdc_id := some id }
                    let db1 := upsert_dataset db name dataset
                    let db2 := update_processed_ids db1 name [id]
                    match process_pending_loop fetch_detail parse_dataset name headers
                        rest (count + 1) db2 with
                    | Except.error e => Except.error e
                    | Except.ok (n, db3, tr) =>
                        Except.ok (n, db3,
                          FetchEvent.detailRequest id headers ::
                          FetchEvent.upsertEv name dataset ::
                          FetchEvent.markProcessed id :: tr)
          else
            match process_pending_loop fetch_detail parse_dataset name headers
                rest count db with
            | Except.error e => Except.error e
            | Except.ok (n, db3, tr) =>
                Except.ok (n, db3,
                  FetchEvent.detailRequest id headers ::
                  FetchEvent.skipped id status :: tr)

/-- fetcher.rs process_pending_datasets, lines 151-199. -/
def process_pending_datasets (token_info : TokenInfo)
    (fetch_detail : String → DetailResponse)
    (parse_dataset : String → Option Dataset) (name : String) (db : FetchDb) :
    Except String (Nat × FetchDb × List FetchEvent) :=
  match token_info.services.find? (fun s => s.name == "GET_DATASET_DETAILS") with
  | none => Except.error (name ++ " GET_DATASET_DETAILS service not found")
  | some _ =>
      let headers := token_headers token_info
      let pending_ids := get_unprocessed_ids db name
      if pending_ids.isEmpty then Except.ok (0, db, [])
      else process_pending_loop fetch_detail parse_dataset name headers pending_ids 0 db

/-- Oracle outcome of the dataset-list request. -/
inductive ListResponse
  | sendErr (msg : String)
  | httpResp (status : Nat) (body : Except String String)

/-- One element of the parsed list response as the code reads it: the value
of its "id" field when that field is present and is a string. -/
structure ListItem where
  id : Option String

/-- fetcher.rs discover_new_ids, lines 74-144.  parse_array is the
serde_json oracle: the body parsed as a JSON array, none when the body is
not valid JSON or not an array. -/
def discover_new_ids (token_info : TokenInfo) (list_response : ListResponse)
    (parse_array : String → Option (List ListItem)) (name : String)
    (db : FetchDb) : Except String (Nat × FetchDb × List FetchEvent) :=
  match token_info.services.find? (fun s => s.name == "DATASET_LIST") with
  | none => Except.error "DATASET_LIST service not found"
  | some _ =>
      let headers := token_headers token_info
      let method := list_method name
      match list_response with
      | ListResponse.sendErr msg => Except.error msg
      | ListResponse.httpResp status body =>
          match body with
          | Except.error msg => Except.error msg
          | Except.ok response_text =>
              if status == 401 || status == 403 then
                Except.error (name ++ " auth failed")
              else if 300 ≤ status && status < 400 then
                Except.error (name ++ " unexpected redirect")
              else if (400 ≤ status && status < 500) || (500 ≤ status && status < 600) then
                Except.error (name ++ " request failed")
              else
                match parse_array response_text with
                | none => Except.error (name ++ " response is not a json array")
                | some items =>
                    let all_dataset_ids := items.filterMap (fun v => v.id)
                    let existing_ids := get_dataset_by_center db name
                    let new_ids := all_dataset_ids.filter
                      (fun id => !(existing_ids.contains id))
                    if new_ids.isEmpty then
                      Except.ok (0, db, [FetchEvent.listRequest name method headers])
                    else
                      Except.ok (new_ids.length, save_new_dataset_ids db name new_ids,
                        [FetchEvent.listRequest name method headers])

/-! ## Per-center driver (src/fetcher.rs fetch_all_center) -/

/-- Outcome of one center in a fetch_all_center run. -/
inductive CenterEvent
  | skippedCenter (name : String)
  | fetched (name : String) (count : Nat)
  | failed (name : String) (msg : String)
deriving DecidableEq, Repr

/-- fetcher.rs fetch_all_center, lines 48-61: iterate over the configured
centers; the skip condition is translated verbatim from line 50
(`!center.enabled || (center.name != "")`); a failing center is logged
(event `failed`) and iteration continues. -/
def fetch_all_center (fetch_center_data : Center → Except String Nat)
    (centers : List Center) : List CenterEvent :=
  centers.map (fun center =>
    if !center.enabled || !(center.name == "") then
      CenterEvent.skippedCenter center.name
    else
      match fetch_center_data center with
      | Except.ok count => CenterEvent.fetched center.name count
      | Except.error e => CenterEvent.failed center.name e)

/-! ## Monitor records and probe phase (src/monitor.rs, src/db/duckdb.rs) -/

/-- MonitorRecord as monitor.rs and duckdb.rs use it (the struct in
models.rs lags this version: monitor.rs additionally writes created_at and
updated_at, stores the error category as a string and has no sync_date). -/
structure MonitorRecord where
  id : String
  raw_id : Option String
  url : String
  name : Option String
  center_name : String
  date_published : Option String
  check_time : Int
  status_code : Option Int
  status_text : Option String
  error_category : Option String
  error_msg : Option String
  error_detail : Option String
  response_time_ms : Option Nat
  is_likely_local_issue : Bool
  headers : Option String
  created_at : Option Int
  updated_at : Option Int
deriving DecidableEq, Repr

/-- models.rs ResponseInfo. -/
structure ResponseInfoM where
  status_code : Int
  status_text : String
  headers : Option String
deriving DecidableEq, Repr

/-- models.rs CheckError. -/
structure CheckErrorM where
  category : ErrorCategory
  message : String
  detail : String
  status_code : Option Int
deriving DecidableEq, Repr

/-- Rendering of an ErrorCategory variant name (monitor.rs stores
e.category.to_string() into the record). -/
def error_category_str : ErrorCategory → String
  | ErrorCategory.NetworkConnection => "NetworkConnection"
  | ErrorCategory.DnsResolution => "DnsResolution"
  | ErrorCategory.Timeout => "Timeout"
  | ErrorCategory.SslCertificate => "SslCertificate"
  | ErrorCategory.ConnectionRefused => "ConnectionRefused"
  | ErrorCategory.ServerError => "ServerError"
  | ErrorCategory.ClientError => "ClientError"
  | ErrorCategory.TooManyRedirects => "TooManyRedirects"
  | ErrorCategory.RequestCanceled => "RequestCanceled"
  | ErrorCategory.Unknown => "Unknown"

/-- monitor.rs handle_check_result, lines 95-114. -/
def handle_check_result (record : MonitorRecord)
    (check_result : Except CheckErrorM ResponseInfoM) : MonitorRecord :=
  match check_result with
  | Except.ok response_info =>
      { record with
          status_code := some response_info.status_code
          status_text := some response_info.status_text
          headers := response_info.headers
          error_category := none
          error_msg := none
          error_detail := none
          is_likely_local_issue := false }
  | Except.error e =>
      { record with
          status_code := e.status_code
          error_category := some (error_category_str e.category)
          error_msg := some e.message
          error_detail := some e.detail
          is_likely_local_issue := is_likely_local_issue e.category }

/-- monitor.rs dataset_to_record, lines 115-136: datasets without an
extractable URL map to none; the synthetic id is the rendered Mongo _id,
defaulting to the empty string when _id is absent. -/
def dataset_to_record (now : Int) (dataset : Dataset) : Option MonitorRecord :=
  match dataset.extract_url with
  | none => none
  | some url =>
      some
        { id := (dataset._id.map (fun s => s)).getD ""
          raw_id := some dataset.raw_id
          url := url
          name := some dataset.extract_name
          center_name := dataset.center_name.getD "Unknown"
          date_published := some dataset.extract_date_published
          check_time := now
          status_code := none
          status_text := none
          error_category := none
          error_msg := none
          error_detail := none
          response_time_ms := none
          is_likely_local_issue := false
          headers := none
          created_at := none
          updated_at := none }

/-- monitor.rs process_record, lines 83-94: stamp elapsed time and the
completion timestamp, then fold in the check result.  The probe oracle maps
a URL to its outcome, elapsed maps a URL to the observed wall-clock
milliseconds. -/
def process_record (probe : String → Except CheckErrorM ResponseInfoM)
    (elapsed : String → Nat) (now : Int) (record : MonitorRecord) : MonitorRecord :=
  let record1 := { record with
      response_time_ms := some (elapsed record.url)
      check_time := now }
  handle_check_result record1 (probe record1.url)

/-- duckdb.rs insert_records, lines 91-129: no-op on the empty batch, one
bulk append otherwise. -/
def insert_records (table : List MonitorRecord)
    (records : List MonitorRecord) : List MonitorRecord :=
  if records.isEmpty then table else table ++ records

/-- duckdb.rs update_status per-row effect of the staging-table join
(UPDATE ... FROM temp_updates t WHERE m.id = t.id): a target row joined to
a staged row with the same id receives that row's result columns plus a
fresh updated_at; with several staged matches DuckDB applies one of them,
modelled deterministically as the first. -/
def update_row (staged : List MonitorRecord) (now : Int)
    (m : MonitorRecord) : MonitorRecord :=
  match staged.find? (fun t => t.id == m.id) with
  | none => m
  | some t =>
      { m with
          status_code := t.status_code
          status_text := t.status_text
          error_category := t.error_category
          error_msg := t.error_msg
          error_detail := t.error_detail
          response_time_ms := t.response_time_ms
          is_likely_local_issue := t.is_likely_local_issue
          headers := t.headers
          check_time := t.check_time
          updated_at := some now }

/-- duckdb.rs update_status, lines 131-193: no-op on the empty batch,
otherwise the single set-based join update over the whole table. -/
def update_status (table : List MonitorRecord) (staged : List MonitorRecord)
    (now : Int) : List MonitorRecord :=
  if staged.isEmpty then table else table.map (update_row staged now)

/-- The probe-result columns of a row: exactly the columns update_status
overwrites (updated_at excluded). -/
def probe_result (r : MonitorRecord) :
    Option Int × Option String × Option String × Option String ×
    Option String × Option Nat × Bool × Option String × Int :=
  (r.status_code, r.status_text, r.error_category, r.error_msg,
   r.error_detail, r.response_time_ms, r.is_likely_local_issue,
   r.headers, r.check_time)

/-- Observable actions of one check_all_urls run, in program order. -/
inductive MonitorEvent
  | insertBatch (records : List MonitorRecord)
  | probe (url : String)
  | updateBatch (records : List MonitorRecord)

/-- monitor.rs check_all_urls, lines 31-82, as an event trace: documents are
mapped to records, the pre-probe bulk insert is awaited, then the probes run
under the concurrency cap (issued in stream order; completions arrive in an
arbitrary order given by the completion parameter), and the completed
results are written back as one bulk update. -/
def check_all_urls (now : Int) (datasets : List Dataset)
    (probe : String → Except CheckErrorM ResponseInfoM)
    (elapsed : String → Nat) (completion : List MonitorRecord) :
    List MonitorEvent :=
  let records := datasets.filterMap (dataset_to_record now)
  let results := completion.map (process_record probe elapsed now)
  MonitorEvent.insertBatch records ::
    (records.map (fun r => MonitorEvent.probe r.url) ++
      [MonitorEvent.updateBatch results])

/-- monitor.rs check_all_urls, line 77: the operational warning condition
(local_issue_count > results.len() / 10, integer floor division). -/
def local_issue_warning (results : List MonitorRecord) : Bool :=
  (results.filter (fun r => r.is_likely_local_issue)).length > results.length / 10

/-! ## Trace shape of a completed detail-fetch batch -/

/-- Shape of the event trace of a batch that ran to completion: each block is
either a detail request followed by the upsert of the dataset stamped with
that id and then the processed mark, or a detail request followed by a skip
on a non-success status. -/
inductive BatchTrace (name : String) : List FetchEvent → Prop
  | nil : BatchTrace name []
  | proc (id : String) (h : List (String × String)) (ds : Dataset)
      (tr : List FetchEvent) (stamped : ds.casdc_id = some id)
      (rest : BatchTrace name tr) :
      BatchTrace name (FetchEvent.detailRequest id h ::
        FetchEvent.upsertEv name ds :: FetchEvent.markProcessed id :: tr)
  | skip (id : String) (h : List (String × String)) (status : Nat)
      (tr : List FetchEvent) (nonsuccess : status_is_success status = false)
      (rest : BatchTrace name tr) :
      BatchTrace name (FetchEvent.detailRequest id h ::
        FetchEvent.skipped id status :: tr)

/-! ## Concrete instances used to evaluate the definitions -/

/-- A configured, enabled center with a non-empty name. -/
def center_A : Center :=
  { name := "A", secret_key := "k", url := "http://u", enabled := true }

/-- A credential offering both named services. -/
def tok_fix : TokenInfo :=
  { token := "tk", version := "7.7",
    services := [{ name := "GET_DATASET_DETAILS", url := "http://d" },
                 { name := "DATASET_LIST", url := "http://l" }],
    expires_at := 1000 }

/-- An auth response whose serviceList carries two versions. -/
def auth_fix : AuthResponse :=
  { ticket := { expires := 3600, token := "tk" },
    service_list :=
      [{ name := "DATASET_LIST", version := "7.7", url := "http://l" },
       { name := "GET_DATASET_DETAILS", version := "8.8", url := "http://d" }] }

/-- Dedup store with two pending ids for center c. -/
def db_fix : FetchDb :=
  { processed_ids :=
      [{ center_name := "c", dataset_id := "a", status := IdStatus.pending },
       { center_name := "c", dataset_id := "b", status := IdStatus.pending }],
    collections := [] }

/-- Empty database. -/
def db_empty : FetchDb := { processed_ids := [], collections := [] }

/-- Dataset with no fields set, raw id rb. -/
def ds_b : Dataset :=
  { _id := none, raw_id := "rb", casdc_id := none, data_type := none,
    url := none, name := none, date_published := none, sync_date := none,
    center_name := none }

/-- Detail oracle: id a gets an unparsable body, id b a parsable one. -/
def fd_cex : String → DetailResponse := fun id =>
  if id == "a" then DetailResponse.httpResp 200 (Except.ok "bad json")
  else DetailResponse.httpResp 200 (Except.ok "good json")

/-- Parse oracle matching fd_cex. -/
def pd_cex : String → Option Dataset := fun text =>
  if text == "good json" then some ds_b else none

/-- Detail oracle whose send fails outright. -/
def fd_send : String → DetailResponse := fun _ => DetailResponse.sendErr "boom"

/-- Two datasets parsed from different external ids sharing raw id r. -/
def ds_ra : Dataset :=
  { _id := none, raw_id := "r", casdc_id := none, data_type := none,
    url := none, name := none, date_published := none, sync_date := none,
    center_name := none }

/-- Detail oracle for the shared-raw-id scenario. -/
def fd_two : String → DetailResponse := fun id =>
  if id == "a" then DetailResponse.httpResp 200 (Except.ok "body a")
  else DetailResponse.httpResp 200 (Except.ok "body b")

/-- Parse oracle for the shared-raw-id scenario: both bodies parse to a
dataset with the same raw id r. -/
def pd_two : String → Option Dataset := fun text =>
  if text == "body a" then some ds_ra
  else if text == "body b" then some ds_ra
  else none

/-- Single pending id for center c. -/
def db_one : FetchDb :=
  { processed_ids :=
      [{ center_name := "c", dataset_id := "a", status := IdStatus.pending }],
    collections := [] }

/-- Detail oracle that always succeeds with a fixed body. -/
def fd_ok_fix : String → DetailResponse := fun _ =>
  DetailResponse.httpResp 200 (Except.ok "okbody")

/-- Parse oracle matching fd_ok_fix. -/
def pd_ok_fix : String → Option Dataset := fun text =>
  if text == "okbody" then some ds_b else none

/-- List-response parse oracle: the fixed body yields ids x and y plus one
malformed entry. -/
def pa_fix : String → Option (List ListItem) := fun text =>
  if text == "listbody" then some [{ id := some "x" }, { id := none }, { id := some "y" }]
  else none

/-- Placeholder analytics row whose only varying field is the local-issue
flag. -/
def sample_row (local_issue : Bool) : MonitorRecord :=
  { id := "", raw_id := none, url := "http://s", name := none,
    center_name := "c", date_published := none, check_time := 0,
    status_code := none, status_text := none, error_category := none,
    error_msg := none, error_detail := none, response_time_ms := none,
    is_likely_local_issue := local_issue, headers := none,
    created_at := none, updated_at := none }

/-- Ten probe results, two of them local issues. -/
def sample10 : List MonitorRecord :=
  List.replicate 8 (sample_row false) ++ List.replicate 2 (sample_row true)

/-- Dataset with a URL but no document-store _id. -/
def ds_no_id : Dataset :=
  { _id := none, raw_id := "rx", casdc_id := none, data_type := none,
    url := some (BsonV.str "http://example.test/x"), name := none,
    date_published := none, sync_date := none, center_name := some "c" }

/-- A second url-bearing dataset without _id. -/
def ds_no_id2 : Dataset :=
  { _id := none, raw_id := "ry", casdc_id := none, data_type := none,
    url := some (BsonV.str "http://example.test/y"), name := none,
    date_published := none, sync_date := none, center_name := some "c" }

/-- Probe oracle answering 200 everywhere. -/
def probe_w : String → Except CheckErrorM ResponseInfoM := fun _ =>
  Except.ok { status_code := 200, status_text := "OK", headers := none }

/-- Elapsed-time oracle. -/
def elapsed_w : String → Nat := fun _ => 5

/-! ## Helper lemmas -/

lemma char_space_le (c : Char) : (' ' ≤ c) ↔ 32 ≤ c.toNat := by
  have h1 : (' ' ≤ c) ↔ (' ').val ≤ c.val := Iff.rfl
  have h2 : (' ').val ≤ c.val ↔ (' ').toNat ≤ c.toNat := Iff.rfl
  have h3 : (' ').toNat = 32 := rfl
  rw [h1, h2, h3]

lemma process_pending_loop_ok
    (fd : String → DetailResponse) (pd : String → Option Dataset) (name : String)
    (headers : List (String × String)) :
    ∀ (ids : List String) (count : Nat) (db : FetchDb)
      (n : Nat) (db' : FetchDb) (tr : List FetchEvent),
      process_pending_loop fd pd name headers ids count db = Except.ok (n, db', tr) →
      n = count + (tr.filter is_mark_event).length ∧
      BatchTrace name tr ∧
      (∀ id h, FetchEvent.detailRequest id h ∈ tr → h = headers) := by
  intro ids
  induction ids with
  | nil =>
      intro count db n db' tr h
      simp only [process_pending_loop, Except.ok.injEq, Prod.mk.injEq] at h
      obtain ⟨h1, h2, h3⟩ := h
      subst h1; subst h2; subst h3
      refine ⟨by simp, BatchTrace.nil, ?_⟩
      intro id hh hmem
      simp at hmem
  | cons id rest ih =>
      intro count db n db' tr h
      simp only [process_pending_loop] at h
      split at h
      · simp at h
      · rename_i status body heq
        split at h
        · rename_i hss
          split at h
          · simp at h
          · rename_i text
            split at h
            · simp at h
            · rename_i ds0 hp
              split at h
              · simp at h
              · rename_i n1 db3 tr1 hrec
                simp only [Except.ok.injEq, Prod.mk.injEq] at h
                obtain ⟨h1, h2, h3⟩ := h
                subst h1; subst h2
                obtain ⟨ihn, ihtr, ihhd⟩ := ih (count + 1) _ n1 db3 tr1 hrec
                subst h3
                refine ⟨?_, ?_, ?_⟩
                · simp only [List.filter, is_mark_event, List.length_cons] at ihn ⊢
                  omega
                · exact BatchTrace.proc id headers _ tr1 rfl ihtr
                · intro id2 h2 hmem
                  simp only [List.mem_cons] at hmem
                  rcases hmem with hx | hx | hx | hx
                  · cases hx; rfl
                  · cases hx
                  · cases hx
                  · exact ihhd id2 h2 hx
        · rename_i hss
          split at h
          · simp at h
          · rename_i n1 db3 tr1 hrec
            simp only [Except.ok.injEq, Prod.mk.injEq] at h
            obtain ⟨h1, h2, h3⟩ := h
            subst h1; subst h2
            obtain ⟨ihn, ihtr, ihhd⟩ := ih count db n1 db3 tr1 hrec
            subst h3
            refine ⟨?_, ?_, ?_⟩
            · simpa [is_mark_event] using ihn
            · exact BatchTrace.skip id headers status tr1 (by simpa using hss) ihtr
            · intro id2 h2 hmem
              simp only [List.mem_cons] at hmem
              rcases hmem with hx | hx | hx
              · cases hx; rfl
              · cases hx
              · exact ihhd id2 h2 hx

lemma set_collection_processed (db : FetchDb) (cn : String) (docs : List Dataset) :
    (set_collection db cn docs).processed_ids = db.processed_ids := by
  unfold set_collection; split <;> rfl

lemma upsert_dataset_processed (db : FetchDb) (cn : String) (d : Dataset) :
    (upsert_dataset db cn d).processed_ids = db.processed_ids :=
  set_collection_processed db cn _

lemma get_unprocessed_congr {db1 db2 : FetchDb} (name : String)
    (h : db1.processed_ids = db2.processed_ids) :
    get_unprocessed_ids db1 name = get_unprocessed_ids db2 name := by
  unfold get_unprocessed_ids; rw [h]

lemma mem_get_unprocessed (db : FetchDb) (name id : String) :
    id ∈ get_unprocessed_ids db name ↔
    ∃ r ∈ db.processed_ids,
      r.center_name = name ∧ r.status = IdStatus.pending ∧ r.dataset_id = id := by
  unfold get_unprocessed_ids
  simp only [List.mem_map, List.mem_filter, Bool.and_eq_true, beq_iff_eq]
  constructor
  · rintro ⟨r, ⟨hrl, hcn, hst⟩, hid⟩
    exact ⟨r, hrl, hcn, hst, hid⟩
  · rintro ⟨r, hrl, hcn, hst, hid⟩
    exact ⟨r, ⟨hrl, hcn, hst⟩, hid⟩

lemma mem_unprocessed_update_other (db : FetchDb) (name id₀ id₁ : String)
    (hne : id₀ ≠ id₁) (h : id₀ ∈ get_unprocessed_ids db name) :
    id₀ ∈ get_unprocessed_ids (update_processed_ids db name [id₁]) name := by
  rw [mem_get_unprocessed] at h ⊢
  obtain ⟨r, hrl, hcn, hst, hid⟩ := h
  refine ⟨r, ?_, hcn, hst, hid⟩
  unfold update_processed_ids
  rw [if_neg (by simp)]
  have hgr :
      (if r.center_name == name && [id₁].contains r.dataset_id then
        { r with status := IdStatus.processed } else r) = r := by
    rw [if_neg]
    intro hcond
    rw [Bool.and_eq_true] at hcond
    have := hcond.2
    simp only [List.contains_cons, List.contains_nil, Bool.or_false, beq_iff_eq] at this
    exact hne (hid ▸ this)
  exact List.mem_map.mpr ⟨r, hrl, hgr⟩

lemma process_pending_loop_preserves
    (fd : String → DetailResponse) (pd : String → Option Dataset) (name : String)
    (headers : List (String × String)) (id₀ : String) (s₀ : Nat)
    (b₀ : Except String String)
    (hfd0 : fd id₀ = DetailResponse.httpResp s₀ b₀)
    (hbad : status_is_success s₀ = false) :
    ∀ (ids : List String) (count : Nat) (db : FetchDb)
      (n : Nat) (db' : FetchDb) (tr : List FetchEvent),
      process_pending_loop fd pd name headers ids count db = Except.ok (n, db', tr) →
      id₀ ∈ get_unprocessed_ids db name → id₀ ∈ get_unprocessed_ids db' name := by
  intro ids
  induction ids with
  | nil =>
      intro count db n db' tr h hm
      simp only [process_pending_loop, Except.ok.injEq, Prod.mk.injEq] at h
      obtain ⟨h1, h2, h3⟩ := h
      subst h2
      exact hm
  | cons id rest ih =>
      intro count db n db' tr h hm
      simp only [process_pending_loop] at h
      split at h
      · simp at h
      · rename_i status body heq
        split at h
        · rename_i hss
          split at h
          · simp at h
          · rename_i text
            split at h
            · simp at h
            · rename_i ds0 hp
              split at h
              · simp at h
              · rename_i n1 db3 tr1 hrec
                simp only [Except.ok.injEq, Prod.mk.injEq] at h
                obtain ⟨h1, h2, h3⟩ := h
                subst h2
                have hne : id₀ ≠ id := by
                  intro hcontra
                  rw [hcontra] at hfd0
                  rw [heq] at hfd0
                  cases hfd0
                  rw [hss] at hbad
                  cases hbad
                have hm1 : id₀ ∈ get_unprocessed_ids
                    (upsert_dataset db name { ds0 with casdc_id := some id }) name := by
                  rw [get_unprocessed_congr name (upsert_dataset_processed db name _)]
                  exact hm
                exact ih (count + 1) _ n1 db3 tr1 hrec
                  (mem_unprocessed_update_other _ name id₀ id hne hm1)
        · rename_i hss
          split at h
          · simp at h
          · rename_i n1 db3 tr1 hrec
            simp only [Except.ok.injEq, Prod.mk.injEq] at h
            obtain ⟨h1, h2, h3⟩ := h
            subst h2
            exact ih count db n1 db3 tr1 hrec hm

lemma process_pending_loop_skipped_mem
    (fd : String → DetailResponse) (pd : String → Option Dataset) (name : String)
    (headers : List (String × String)) (id₀ : String) (s₀ : Nat)
    (b₀ : Except String String)
    (hfd0 : fd id₀ = DetailResponse.httpResp s₀ b₀)
    (hbad : status_is_success s₀ = false) :
    ∀ (ids : List String) (count : Nat) (db : FetchDb)
      (n : Nat) (db' : FetchDb) (tr : List FetchEvent),
      process_pending_loop fd pd name headers ids count db = Except.ok (n, db', tr) →
      id₀ ∈ ids → FetchEvent.skipped id₀ s₀ ∈ tr := by
  intro ids
  induction ids with
  | nil =>
      intro count db n db' tr h hm
      simp at hm
  | cons id rest ih =>
      intro count db n db' tr h hm
      simp only [process_pending_loop] at h
      split at h
      · simp at h
      · rename_i status body heq
        split at h
        · rename_i hss
          split at h
          · simp at h
          · rename_i text
            split at h
            · simp at h
            · rename_i ds0 hp
              split at h
              · simp at h
              · rename_i n1 db3 tr1 hrec
                simp only [Except.ok.injEq, Prod.mk.injEq] at h
                obtain ⟨h1, h2, h3⟩ := h
                subst h3
                have hne : id₀ ≠ id := by
                  intro hcontra
                  rw [hcontra] at hfd0
                  rw [heq] at hfd0
                  cases hfd0
                  rw [hss] at hbad
                  cases hbad
                have hmr : id₀ ∈ rest := by
                  rcases List.mem_cons.mp hm with hx | hx
                  · exact absurd hx hne
                  · exact hx
                have := ih (count + 1) _ n1 db3 tr1 hrec hmr
                simp only [List.mem_cons]
                right; right; right; exact this
        · rename_i hss
          split at h
          · simp at h
          · rename_i n1 db3 tr1 hrec
            simp only [Except.ok.injEq, Prod.mk.injEq] at h
            obtain ⟨h1, h2, h3⟩ := h
            subst h3
            by_cases hid : id₀ = id
            · subst hid
              rw [heq] at hfd0
              cases hfd0
              simp
            · have hmr : id₀ ∈ rest := by
                rcases List.mem_cons.mp hm with hx | hx
                · exact absurd hx hid
                · exact hx
              have := ih count db n1 db3 tr1 hrec hmr
              simp only [List.mem_cons]
              right; right; exact this

/-! ## Claims -/

/-- C1: at fetcher.rs line 50 the condition `!center.enabled ||
(center.name != "")` skips every center whose name is non-empty while
logging it as disabled: evaluating fetch_all_center on a single enabled
center named A shows the center is skipped and its discovery oracle is
never consulted, contradicting the claim that only disabled providers are
skipped. -/
theorem c1_enabled_center_is_skipped :
    fetch_all_center (fun _ => Except.ok 5) [center_A] =
      [CenterEvent.skippedCenter "A"] := rfl

/-- C5 (counterexample): DEL (U+007F) is a control character other than
newline, carriage return and tab, yet clean_json_string keeps it, so the
claim that every other control character is absent from the output is
false. -/
theorem c5_del_survives :
    ('\x7F' ∈ (clean_json_string "\x7F").data) ∧ is_control_char '\x7F' = true ∧
      '\x7F' ≠ '\n' ∧ '\x7F' ≠ '\r' ∧ '\x7F' ≠ '\t' := by decide

/-- C5 (amended): clean_json_string returns the subsequence of the input
keeping exactly the characters of code point at least U+0020 together with
newline, carriage return and tab; hence only C0 control characters other
than those three are removed, and any control character surviving in the
output besides those three has a code point of at least U+007F. -/
theorem c5_amended_c0_stripped : ∀ s : String,
    (clean_json_string s).data =
      s.data.filter (fun c =>
        !(decide (c.toNat < 0x20)) || c == '\n' || c == '\r' || c == '\t') ∧
    (clean_json_string s).data.Sublist s.data ∧
    (∀ c, c ∈ (clean_json_string s).data → is_control_char c = true →
      c = '\n' ∨ c = '\r' ∨ c = '\t' ∨ 0x7F ≤ c.toNat) := by
  intro s
  have hpt : ∀ c : Char, decide (' ' ≤ c) = !(decide (c.toNat < 0x20)) := by
    intro c
    by_cases hc : (32 : Nat) ≤ c.toNat
    · simp [char_space_le c, hc, Nat.not_lt.mpr hc]
    · have hlt : c.toNat < 32 := Nat.lt_of_not_le hc
      simp [char_space_le c, hc, hlt, Nat.not_le.mpr hlt]
  have hdata : (clean_json_string s).data =
      s.data.filter (fun c =>
        decide (' ' ≤ c) || c == '\n' || c == '\r' || c == '\t') := rfl
  refine ⟨?_, ?_, ?_⟩
  · rw [hdata]
    apply List.filter_congr
    intro c _
    rw [hpt c]
  · rw [hdata]
    exact List.filter_sublist s.data
  · intro c hc hctrl
    rw [hdata] at hc
    have hpred := (List.mem_filter.mp hc).2
    simp only [Bool.or_eq_true, Bool.not_eq_true', decide_eq_false_iff_not,
      decide_eq_true_eq, beq_iff_eq] at hpred
    simp only [is_control_char, Bool.or_eq_true, Bool.and_eq_true,
      decide_eq_true_eq] at hctrl
    rcases hpred with ((h32 | hn) | hr) | ht
    · have hge := (char_space_le c).mp h32
      rcases hctrl with hlt | ⟨h7f, _⟩
      · omega
      · exact Or.inr (Or.inr (Or.inr h7f))
    · exact Or.inl hn
    · exact Or.inr (Or.inl hr)
    · exact Or.inr (Or.inr (Or.inl ht))

/-- C5 (witness): the amended theorem evaluated on a concrete string with a
C0 control byte: the byte is removed and the visible characters are kept. -/
theorem c5_amended_witness : (clean_json_string "ab\x01").data = "ab".data := by
  have h := (c5_amended_c0_stripped "ab\x01").1
  rw [h]
  decide

/-- C6: from_request_error coincides with the classification written from
the decision order of the spec, and is_likely_local_issue is true exactly
on NetworkConnection, DnsResolution, Timeout and RequestCanceled. -/
theorem c6_classifier_matches_spec :
    (∀ e, from_request_error e = classify_request_error_spec e) ∧
    (∀ c, is_likely_local_issue c = true ↔
      (c = ErrorCategory.NetworkConnection ∨ c = ErrorCategory.DnsResolution ∨
       c = ErrorCategory.Timeout ∨ c = ErrorCategory.RequestCanceled)) := by
  constructor
  · intro e
    rcases e with ⟨t, c, r, q, s⟩
    cases t <;> cases c <;> cases r <;> cases q <;> cases s <;> rfl
  · intro c
    cases c <;> simp [is_likely_local_issue]

/-- C6 (witness): the classifier equality evaluated on a concrete timeout
error. -/
theorem c6_witness :
    from_request_error ⟨true, false, false, false, none⟩ =
      classify_request_error_spec ⟨true, false, false, false, none⟩ :=
  c6_classifier_matches_spec.1 ⟨true, false, false, false, none⟩

/-- C7: the operational-warning condition computed with natural floor
division (count > total / 10) is equivalent to the exact-rational strict
threshold count > total/10 for every results list. -/
theorem c7_warning_threshold :
    ∀ results : List MonitorRecord,
      local_issue_warning results = true ↔
        ((results.filter (fun r => r.is_likely_local_issue)).length : ℚ) >
          (results.length : ℚ) / 10 := by
  intro results
  unfold local_issue_warning
  rw [decide_eq_true_eq]
  rw [gt_iff_lt, Nat.div_lt_iff_lt_mul (by norm_num : (0:ℕ) < 10), gt_iff_lt,
    div_lt_iff₀ (by norm_num : (0:ℚ) < 10)]
  exact_mod_cast Iff.rfl

/-- C7 (witness): with 2 local issues out of 10 probes the warning fires,
and by the theorem the exact 20 percent rate indeed exceeds 10 percent. -/
theorem c7_warning_witness :
    ((sample10.filter (fun r => r.is_likely_local_issue)).length : ℚ) >
      (sample10.length : ℚ) / 10 :=
  (c7_warning_threshold sample10).mp (by decide)

/-- C2 (amended): in process_pending_datasets only a non-success HTTP
status on an id is logged and skipped — the id stays pending and the batch
continues — while a transport error on the send aborts the whole batch as
an error; on a batch that completes, the returned count equals the number
of ids that were marked processed, i.e. completed every step. -/
theorem c2_amended_batch_behavior :
    ∀ (token_info : TokenInfo) (fd : String → DetailResponse)
      (pd : String → Option Dataset) (name : String) (db : FetchDb),
      (∀ n db' tr,
        process_pending_datasets token_info fd pd name db = Except.ok (n, db', tr) →
        n = (tr.filter is_mark_event).length) ∧
      (∀ id₀ s₀ b₀, fd id₀ = DetailResponse.httpResp s₀ b₀ →
        status_is_success s₀ = false →
        ∀ n db' tr,
          process_pending_datasets token_info fd pd name db = Except.ok (n, db', tr) →
          id₀ ∈ get_unprocessed_ids db name →
          FetchEvent.skipped id₀ s₀ ∈ tr ∧ id₀ ∈ get_unprocessed_ids db' name) ∧
      (∀ id₀ rest msg,
        (token_info.services.find?
          (fun s => s.name == "GET_DATASET_DETAILS")).isSome = true →
        get_unprocessed_ids db name = id₀ :: rest →
        fd id₀ = DetailResponse.sendErr msg →
        process_pending_datasets token_info fd pd name db = Except.error msg) := by
  intro token_info fd pd name db
  refine ⟨?_, ?_, ?_⟩
  · intro n db' tr h
    unfold process_pending_datasets at h
    split at h
    · simp at h
    · dsimp only at h
      split at h
      · simp only [Except.ok.injEq, Prod.mk.injEq] at h
        obtain ⟨h1, h2, h3⟩ := h
        subst h1; subst h3
        simp
      · have := (process_pending_loop_ok fd pd name (token_headers token_info)
          (get_unprocessed_ids db name) 0 db n db' tr h).1
        simpa using this
  · intro id₀ s₀ b₀ hfd0 hbad n db' tr h hm
    unfold process_pending_datasets at h
    split at h
    · simp at h
    · dsimp only at h
      split at h
      · rename_i hemp
        rw [List.isEmpty_iff.mp hemp] at hm
        simp at hm
      · constructor
        · exact process_pending_loop_skipped_mem fd pd name (token_headers token_info)
            id₀ s₀ b₀ hfd0 hbad (get_unprocessed_ids db name) 0 db n db' tr h hm
        · exact process_pending_loop_preserves fd pd name (token_headers token_info)
            id₀ s₀ b₀ hfd0 hbad (get_unprocessed_ids db name) 0 db n db' tr h hm
  · intro id₀ rest msg hsvc hpend hsend
    unfold process_pending_datasets
    split
    · rename_i hnone
      rw [hnone] at hsvc
      simp at hsvc
    · rw [hpend]
      rw [if_neg (by simp)]
      simp only [process_pending_loop, hsend]

/-- C2 (counterexample): a JSON-parse failure on the first pending id
aborts the whole batch with an error — although the second pending id b
would fetch and parse successfully, no count is returned and b is never
attempted, refuting the claim that any single-id failure is logged and
skipped while the batch continues. -/
theorem c2_parse_error_aborts_batch :
    process_pending_datasets tok_fix fd_cex pd_cex "c" db_fix =
      Except.error "c parse failure for a" ∧
    (pd_cex (clean_json_string "good json")).isSome = true ∧
    "b" ∈ get_unprocessed_ids db_fix "c" := by
  refine ⟨rfl, rfl, by decide⟩

/-- C2 (witness): the amended theorem applied at a concrete batch whose
first pending id hits a transport error: the batch aborts with that
error. -/
theorem c2_amended_witness :
    process_pending_datasets tok_fix fd_send pd_cex "c" db_fix =
      Except.error "boom" :=
  (c2_amended_batch_behavior tok_fix fd_send pd_cex "c" db_fix).2.2
    "a" ["b"] "boom" (by decide) (by decide) rfl

lemma upsert_into_idem (coll : List Dataset) (d : Dataset) :
    upsert_into (upsert_into coll d) d = upsert_into coll d := by
  induction coll with
  | nil => simp [upsert_into]
  | cons x xs ih =>
      by_cases hx : x.raw_id == d.raw_id
      · simp [upsert_into, hx]
      · simp only [upsert_into, hx, Bool.false_eq_true, if_false, ih]

lemma upsert_into_filter (coll : List Dataset) (d : Dataset)
    (hone : (coll.filter (fun x => x.raw_id == d.raw_id)).length ≤ 1) :
    (upsert_into coll d).filter (fun x => x.raw_id == d.raw_id) = [d] := by
  induction coll with
  | nil => simp [upsert_into]
  | cons x xs ih =>
      by_cases hx : x.raw_id == d.raw_id
      · simp only [upsert_into, hx, if_true]
        have hxs : (xs.filter (fun x => x.raw_id == d.raw_id)).length = 0 := by
          simp only [List.filter_cons, hx, if_true, List.length_cons] at hone
          omega
        rw [List.length_eq_zero] at hxs
        simp [List.filter_cons, hxs]
      · simp only [List.filter_cons, hx, Bool.false_eq_true, if_false] at hone
        simp only [upsert_into, hx, Bool.false_eq_true, if_false, List.filter_cons]
        exact ih hone

/-- C4 (amended): on a successful detail fetch the dataset stamped with the
external id is upserted before the id is marked processed (every completed
batch trace is made of detail-upsert-mark blocks whose dataset carries the
id in casdc_id), the upsert is keyed by the dataset's raw "@id" field —
upserting the same dataset twice is idempotent, and upserting into a
collection holding at most one document with that raw id leaves exactly one
such document. -/
theorem c4_amended_upsert_semantics :
    (∀ (token_info : TokenInfo) (fd : String → DetailResponse)
       (pd : String → Option Dataset) (name : String) (db : FetchDb) n db' tr,
       process_pending_datasets token_info fd pd name db = Except.ok (n, db', tr) →
       BatchTrace name tr) ∧
    (∀ (coll : List Dataset) (d : Dataset),
       upsert_into (upsert_into coll d) d = upsert_into coll d) ∧
    (∀ (coll : List Dataset) (d : Dataset),
       (coll.filter (fun x => x.raw_id == d.raw_id)).length ≤ 1 →
       (upsert_into coll d).filter (fun x => x.raw_id == d.raw_id) = [d]) := by
  refine ⟨?_, upsert_into_idem, upsert_into_filter⟩
  intro token_info fd pd name db n db' tr h
  unfold process_pending_datasets at h
  split at h
  · simp at h
  · dsimp only at h
    split at h
    · simp only [Except.ok.injEq, Prod.mk.injEq] at h
      obtain ⟨h1, h2, h3⟩ := h
      subst h3
      exact BatchTrace.nil
    · exact (process_pending_loop_ok fd pd name (token_headers token_info)
        (get_unprocessed_ids db name) 0 db n db' tr h).2.1

/-- C4 (counterexample): two distinct external ids a and b whose detail
bodies carry the same raw "@id" r are both fetched successfully and marked
processed, yet the document store ends with a single document — stamped
with b — because the upsert is keyed by the raw id, not by the external
id: the document for a was replaced, refuting replace-by-external-id /
insert-if-absent semantics. -/
theorem c4_upsert_not_keyed_by_external_id :
    process_pending_datasets tok_fix fd_two pd_two "c" db_fix =
      Except.ok (2,
        { processed_ids :=
            [{ center_name := "c", dataset_id := "a", status := IdStatus.processed },
             { center_name := "c", dataset_id := "b", status := IdStatus.processed }],
          collections := [("c", [{ ds_ra with casdc_id := some "b" }])] },
        [FetchEvent.detailRequest "a" (token_headers tok_fix),
         FetchEvent.upsertEv "c" { ds_ra with casdc_id := some "a" },
         FetchEvent.markProcessed "a",
         FetchEvent.detailRequest "b" (token_headers tok_fix),
         FetchEvent.upsertEv "c" { ds_ra with casdc_id := some "b" },
         FetchEvent.markProcessed "b"]) := rfl

/-- C4 (witness): the amended theorem applied to a concrete one-id batch
that completes: its trace is a single detail-upsert-mark block. -/
theorem c4_amended_witness :
    BatchTrace "c"
      [FetchEvent.detailRequest "a" (token_headers tok_fix),
       FetchEvent.upsertEv "c" { ds_b with casdc_id := some "a" },
       FetchEvent.markProcessed "a"] :=
  c4_amended_upsert_semantics.1 tok_fix fd_ok_fix pd_ok_fix "c" db_one 1
    { processed_ids :=
        [{ center_name := "c", dataset_id := "a", status := IdStatus.processed }],
      collections := [("c", [{ ds_b with casdc_id := some "a" }])] }
    _ rfl

lemma discover_ok_eq
    (token_info : TokenInfo) (status : Nat) (text : String)
    (parse_array : String → Option (List ListItem)) (name : String) (db : FetchDb)
    (items : List ListItem)
    (hsvc : (token_info.services.find? (fun s => s.name == "DATASET_LIST")).isSome = true)
    (h401 : (status == 401 || status == 403) = false)
    (h3xx : (300 ≤ status && status < 400) = false)
    (h45 : ((400 ≤ status && status < 500) || (500 ≤ status && status < 600)) = false)
    (hparse : parse_array text = some items) :
    discover_new_ids token_info (ListResponse.httpResp status (Except.ok text))
        parse_array name db =
      Except.ok
        (((items.filterMap (fun v => v.id)).filter
            (fun id => !((get_dataset_by_center db name).contains id))).length,
         save_new_dataset_ids db name
           ((items.filterMap (fun v => v.id)).filter
             (fun id => !((get_dataset_by_center db name).contains id))),
         [FetchEvent.listRequest name (list_method name) (token_headers token_info)]) := by
  unfold discover_new_ids
  split
  · rename_i hnone
    rw [hnone] at hsvc
    simp at hsvc
  · dsimp only
    rw [if_neg (by simp [h401]), if_neg (by simp [h3xx]), if_neg (by simp [h45]), hparse]
    dsimp only
    by_cases hfr : ((items.filterMap (fun v => v.id)).filter
        (fun id => !((get_dataset_by_center db name).contains id))).isEmpty
    · rw [if_pos hfr]
      rw [List.isEmpty_iff] at hfr
      rw [hfr]
      simp [save_new_dataset_ids]
    · rw [if_neg hfr]

lemma get_dataset_by_center_save (db : FetchDb) (name : String) (ids : List String) :
    get_dataset_by_center (save_new_dataset_ids db name ids) name =
      get_dataset_by_center db name ++ ids := by
  by_cases hids : ids.isEmpty
  · rw [List.isEmpty_iff] at hids
    subst hids
    simp [save_new_dataset_ids]
  · unfold save_new_dataset_ids
    rw [if_neg hids]
    unfold get_dataset_by_center
    simp only [List.filter_append, List.map_append]
    congr 1
    rw [List.filter_map, List.map_map]
    have : ((fun r => r.center_name == name) ∘ fun id =>
        ({ center_name := name, dataset_id := id,
           status := IdStatus.pending } : ProcessedIdRecord)) = fun _ => true := by
      funext id
      simp [Function.comp]
    rw [this, List.filter_true]
    have h2 : ((fun r : ProcessedIdRecord => r.dataset_id) ∘ fun id =>
        ({ center_name := name, dataset_id := id,
           status := IdStatus.pending } : ProcessedIdRecord)) = fun x => x := by
      funext x
      rfl
    rw [h2]
    exact List.map_id' ids

lemma save_new_processed (db : FetchDb) (name : String) (ids : List String) :
    (save_new_dataset_ids db name ids).processed_ids =
      db.processed_ids ++ ids.map (fun id =>
        { center_name := name, dataset_id := id, status := IdStatus.pending }) := by
  by_cases hids : ids.isEmpty
  · rw [List.isEmpty_iff] at hids
    subst hids
    simp [save_new_dataset_ids]
  · unfold save_new_dataset_ids
    rw [if_neg hids]

/-- C3: under a good-status response, discover_new_ids computes the known
set from all dedup records of the provider regardless of status, persists
exactly the ids of the fetched list that are not already known (as pending
records appended to the store, returning their count and writing nothing
when the difference is empty), never re-creates a record for a known id,
and an immediately repeated identical discovery run returns 0 and leaves
the store unchanged. -/
theorem c3_discovery_set_difference :
    ∀ (token_info : TokenInfo) (status : Nat) (text : String)
      (parse_array : String → Option (List ListItem)) (name : String) (db : FetchDb)
      (items : List ListItem) (fresh : List String),
      (token_info.services.find? (fun s => s.name == "DATASET_LIST")).isSome = true →
      (status == 401 || status == 403) = false →
      (300 ≤ status && status < 400) = false →
      ((400 ≤ status && status < 500) || (500 ≤ status && status < 600)) = false →
      parse_array text = some items →
      fresh = (items.filterMap (fun v => v.id)).filter
        (fun id => !((get_dataset_by_center db name).contains id)) →
      discover_new_ids token_info (ListResponse.httpResp status (Except.ok text))
          parse_array name db =
        Except.ok (fresh.length, save_new_dataset_ids db name fresh,
          [FetchEvent.listRequest name (list_method name) (token_headers token_info)]) ∧
      (save_new_dataset_ids db name fresh).processed_ids =
        db.processed_ids ++ fresh.map (fun id =>
          { center_name := name, dataset_id := id, status := IdStatus.pending }) ∧
      (∀ id, id ∈ fresh ↔
        (id ∈ items.filterMap (fun v => v.id) ∧
          ¬ id ∈ get_dataset_by_center db name)) ∧
      (∀ id ∈ get_dataset_by_center db name, ¬ id ∈ fresh) ∧
      discover_new_ids token_info (ListResponse.httpResp status (Except.ok text))
          parse_array name (save_new_dataset_ids db name fresh) =
        Except.ok (0, save_new_dataset_ids db name fresh,
          [FetchEvent.listRequest name (list_method name) (token_headers token_info)]) := by
  intro token_info status text parse_array name db items fresh
  intro hsvc h401 h3xx h45 hparse hfresh
  have hchar : ∀ id, id ∈ fresh ↔
      (id ∈ items.filterMap (fun v => v.id) ∧
        ¬ id ∈ get_dataset_by_center db name) := by
    intro id
    rw [hfresh]
    simp [List.mem_filter, List.elem_eq_mem]
  refine ⟨?_, save_new_processed db name fresh, hchar, ?_, ?_⟩
  · rw [hfresh]
    exact discover_ok_eq token_info status text parse_array name db items
      hsvc h401 h3xx h45 hparse
  · intro id hknown hin
    exact ((hchar id).mp hin).2 hknown
  · have h2 := discover_ok_eq token_info status text parse_array name
      (save_new_dataset_ids db name fresh) items hsvc h401 h3xx h45 hparse
    have hnil : (items.filterMap (fun v => v.id)).filter
        (fun id => !((get_dataset_by_center
          (save_new_dataset_ids db name fresh) name).contains id)) = [] := by
      rw [List.filter_eq_nil_iff]
      intro a ha
      rw [get_dataset_by_center_save]
      simp only [Bool.not_eq_true', Bool.not_eq_false, List.elem_eq_mem,
        decide_eq_true_eq, List.mem_append]
      by_cases hk : a ∈ get_dataset_by_center db name
      · exact Or.inl hk
      · exact Or.inr ((hchar a).mpr ⟨ha, hk⟩)
    rw [hnil] at h2
    simpa [save_new_dataset_ids] using h2

lemma discover_ok_trace
    (token_info : TokenInfo) (list_response : ListResponse)
    (parse_array : String → Option (List ListItem)) (name : String) (db : FetchDb)
    (n : Nat) (db' : FetchDb) (tr : List FetchEvent)
    (h : discover_new_ids token_info list_response parse_array name db =
      Except.ok (n, db', tr)) :
    tr = [FetchEvent.listRequest name (list_method name) (token_headers token_info)] := by
  unfold discover_new_ids at h
  split at h
  · simp at h
  · dsimp only at h
    split at h
    · simp at h
    · split at h
      · simp at h
      · rename_i text
        split at h
        · simp at h
        · split at h
          · simp at h
          · split at h
            · simp at h
            · split at h
              · simp at h
              · rename_i items
                split at h
                · simp only [Except.ok.injEq, Prod.mk.injEq] at h
                  exact h.2.2.symm
                · simp only [Except.ok.injEq, Prod.mk.injEq] at h
                  exact h.2.2.symm

/-- C9: the credential built by get_or_refresh_token takes its version from
the first serviceList entry, defaulting to the string 1.0 when the list is
empty; the header list sent with requests is exactly token and version; and
on any completed discovery or detail batch every list request and every
detail request in the trace carries exactly those headers — the same single
version value regardless of which named service is invoked. -/
theorem c9_version_header_source :
    (∀ (now : Int) (auth : AuthResponse),
      (build_token_info now auth).version =
        (match auth.service_list.head? with
          | none => "1.0"
          | some s => s.version)) ∧
    (∀ t : TokenInfo, token_headers t = [("token", t.token), ("version", t.version)]) ∧
    (∀ (token_info : TokenInfo) (resp : ListResponse)
       (pa : String → Option (List ListItem)) (name : String) (db : FetchDb)
       (n : Nat) (db' : FetchDb) (tr : List FetchEvent),
      discover_new_ids token_info resp pa name db = Except.ok (n, db', tr) →
      ∀ m h, FetchEvent.listRequest name m h ∈ tr → h = token_headers token_info) ∧
    (∀ (token_info : TokenInfo) (fd : String → DetailResponse)
       (pd : String → Option Dataset) (name : String) (db : FetchDb)
       (n : Nat) (db' : FetchDb) (tr : List FetchEvent),
      process_pending_datasets token_info fd pd name db = Except.ok (n, db', tr) →
      ∀ id h, FetchEvent.detailRequest id h ∈ tr → h = token_headers token_info) := by
  refine ⟨?_, fun _ => rfl, ?_, ?_⟩
  · intro now auth
    unfold build_token_info
    cases auth.service_list with
    | nil => rfl
    | cons s rest => rfl
  · intro token_info resp pa name db n db' tr hok m h hmem
    rw [discover_ok_trace token_info resp pa name db n db' tr hok] at hmem
    rw [List.mem_singleton] at hmem
    cases hmem
    rfl
  · intro token_info fd pd name db n db' tr hok id h hmem
    unfold process_pending_datasets at hok
    split at hok
    · simp at hok
    · dsimp only at hok
      split at hok
      · simp only [Except.ok.injEq, Prod.mk.injEq] at hok
        rw [← hok.2.2] at hmem
        simp at hmem
      · exact (process_pending_loop_ok fd pd name (token_headers token_info)
          (get_unprocessed_ids db name) 0 db n db' tr hok).2.2 id h hmem

/-- C8: in a check_all_urls run the bulk insert of the placeholder records
is the first event of the trace — every probe event comes strictly after
it and probes the url of one of the inserted records — and every inserted
placeholder has all result fields null. -/
theorem c8_insert_before_probe :
    ∀ (now : Int) (datasets : List Dataset)
      (probe : String → Except CheckErrorM ResponseInfoM) (elapsed : String → Nat)
      (completion : List MonitorRecord) (records : List MonitorRecord)
      (tr : List MonitorEvent),
      records = datasets.filterMap (dataset_to_record now) →
      tr = check_all_urls now datasets probe elapsed completion →
      tr.head? = some (MonitorEvent.insertBatch records) ∧
      (∀ i u, tr.get? i = some (MonitorEvent.probe u) →
        0 < i ∧ ∃ r ∈ records, r.url = u) ∧
      (∀ r ∈ records, r.status_code = none ∧ r.status_text = none ∧
        r.error_category = none ∧ r.error_msg = none ∧ r.error_detail = none ∧
        r.response_time_ms = none ∧ r.is_likely_local_issue = false) := by
  intro now datasets probe elapsed completion records tr hrec htr
  subst hrec
  subst htr
  refine ⟨rfl, ?_, ?_⟩
  · intro i u hi
    unfold check_all_urls at hi
    cases i with
    | zero => simp at hi
    | succ j =>
        refine ⟨Nat.succ_pos j, ?_⟩
        have hmem : MonitorEvent.probe u ∈
            ((datasets.filterMap (dataset_to_record now)).map
              (fun r => MonitorEvent.probe r.url) ++
              [MonitorEvent.updateBatch (completion.map
                (process_record probe elapsed now))]) := by
          have := List.get?_mem hi
          simpa using this
        rw [List.mem_append] at hmem
        rcases hmem with hmem | hmem
        · rw [List.mem_map] at hmem
          obtain ⟨r, hr, heq⟩ := hmem
          cases heq
          exact ⟨r, hr, rfl⟩
        · simp at hmem
  · intro r hr
    rw [List.mem_filterMap] at hr
    obtain ⟨ds, _, hds⟩ := hr
    unfold dataset_to_record at hds
    split at hds
    · cases hds
    · simp only [Option.some.injEq] at hds
      subst hds
      exact ⟨rfl, rfl, rfl, rfl, rfl, rfl, rfl⟩

lemma update_row_placeholder_eq (staged : List MonitorRecord) (up : Int)
    (r₁ r₂ : MonitorRecord) (hid : r₁.id = r₂.id)
    (hres : probe_result r₁ = probe_result r₂) :
    probe_result (update_row staged up r₁) = probe_result (update_row staged up r₂) := by
  unfold update_row
  rw [hid]
  cases hf : staged.find? (fun t => t.id == r₂.id) with
  | none => exact hres
  | some t => rfl

/-- C10: a dataset whose document-store _id is absent maps to a
MonitorRecord with the empty string as synthetic id; two placeholder rows
with equal ids receive identical probe-result columns from the
staging-table join update; and on a non-empty staged batch update_status
is exactly the per-row join applied to the whole table. -/
theorem c10_empty_synthetic_id_collision :
    (∀ (now : Int) (ds : Dataset) (r : MonitorRecord),
      dataset_to_record now ds = some r → ds._id = none → r.id = "") ∧
    (∀ (now up : Int) (staged : List MonitorRecord) (ds₁ ds₂ : Dataset)
       (r₁ r₂ : MonitorRecord),
      dataset_to_record now ds₁ = some r₁ → dataset_to_record now ds₂ = some r₂ →
      r₁.id = r₂.id →
      probe_result (update_row staged up r₁) = probe_result (update_row staged up r₂)) ∧
    (∀ (table staged : List MonitorRecord) (now : Int), staged.isEmpty = false →
      update_status table staged now = table.map (update_row staged now)) := by
  refine ⟨?_, ?_, ?_⟩
  · intro now ds r h hid
    unfold dataset_to_record at h
    split at h
    · cases h
    · simp only [Option.some.injEq] at h
      subst h
      simp [hid]
  · intro now up staged ds₁ ds₂ r₁ r₂ h1 h2 h3
    apply update_row_placeholder_eq staged up r₁ r₂ h3
    unfold dataset_to_record at h1 h2
    split at h1
    · cases h1
    · split at h2
      · cases h2
      · simp only [Option.some.injEq] at h1 h2
        subst h1
        subst h2
        rfl
  · intro table staged now h
    unfold update_status
    rw [if_neg (by simp [h])]

/-- C3 (witness): the claim theorem applied to a concrete discovery —
after persisting x and y, a second identical run persists zero new ids and
leaves the store unchanged. -/
theorem c3_discovery_witness :
    discover_new_ids tok_fix (ListResponse.httpResp 200 (Except.ok "listbody"))
        pa_fix "c" (save_new_dataset_ids db_empty "c" ["x", "y"]) =
      Except.ok (0, save_new_dataset_ids db_empty "c" ["x", "y"],
        [FetchEvent.listRequest "c" (list_method "c") (token_headers tok_fix)]) :=
  (c3_discovery_set_difference tok_fix 200 "listbody" pa_fix "c" db_empty
    [⟨some "x"⟩, ⟨none⟩, ⟨some "y"⟩] ["x", "y"]
    (by decide) (by decide) (by decide) (by decide) rfl (by decide)).2.2.2.2

/-- C9 (witness): on a concrete completed discovery run for a credential
built from auth_fix, the single list request carried exactly the token and
the version of the first serviceList entry. -/
theorem c9_version_header_witness :
    [("token", "tk"), ("version", "7.7")] =
      token_headers (build_token_info 0 auth_fix) :=
  c9_version_header_source.2.2.1 (build_token_info 0 auth_fix)
    (ListResponse.httpResp 200 (Except.ok "listbody")) pa_fix "c" db_empty
    2
    { processed_ids :=
        [{ center_name := "c", dataset_id := "x", status := IdStatus.pending },
         { center_name := "c", dataset_id := "y", status := IdStatus.pending }],
      collections := [] }
    [FetchEvent.listRequest "c" "GET" [("token", "tk"), ("version", "7.7")]]
    rfl "GET" [("token", "tk"), ("version", "7.7")]
    (List.mem_singleton.mpr rfl)

/-- C8 (witness): the ordering theorem applied to a concrete run over one
url-bearing dataset: the first trace event is the bulk insert of its
placeholder row. -/
theorem c8_insert_witness :
    (check_all_urls 5 [ds_no_id] probe_w elapsed_w []).head? =
      some (MonitorEvent.insertBatch
        [{ id := "", raw_id := some "rx", url := "http://example.test/x",
           name := some "Unknown", center_name := "c",
           date_published := some "unknown", check_time := 5,
           status_code := none, status_text := none, error_category := none,
           error_msg := none, error_detail := none, response_time_ms := none,
           is_likely_local_issue := false, headers := none,
           created_at := none, updated_at := none }]) :=
  (c8_insert_before_probe 5 [ds_no_id] probe_w elapsed_w []
    [{ id := "", raw_id := some "rx", url := "http://example.test/x",
       name := some "Unknown", center_name := "c",
       date_published := some "unknown", check_time := 5,
       status_code := none, status_text := none, error_category := none,
       error_msg := none, error_detail := none, response_time_ms := none,
       is_likely_local_issue := false, headers := none,
       created_at := none, updated_at := none }]
    (check_all_urls 5 [ds_no_id] probe_w elapsed_w []) rfl rfl).1

/-- C10 (witness): two url-bearing datasets without _id map to rows whose
synthetic ids are both empty, and the join update hands both rows the same
probe result from a staged row with the empty id. -/
theorem c10_collision_witness :
    probe_result (update_row [sample_row true] 7
      { id := "", raw_id := some "rx", url := "http://example.test/x",
        name := some "Unknown", center_name := "c",
        date_published := some "unknown", check_time := 3,
        status_code := none, status_text := none, error_category := none,
        error_msg := none, error_detail := none, response_time_ms := none,
        is_likely_local_issue := false, headers := none,
        created_at := none, updated_at := none }) =
    probe_result (update_row [sample_row true] 7
      { id := "", raw_id := some "ry", url := "http://example.test/y",
        name := some "Unknown", center_name := "c",
        date_published := some "unknown", check_time := 3,
        status_code := none, status_text := none, error_category := none,
        error_msg := none, error_detail := none, response_time_ms := none,
        is_likely_local_issue := false, headers := none,
        created_at := none, updated_at := none }) :=
  c10_empty_synthetic_id_collision.2.1 3 7 [sample_row true] ds_no_id ds_no_id2
    _ _ rfl rfl rfl
